import Mathlib

/-!
Shallow embedding of the network-bandwidth monitor
(`network_monitor.py`, `metrics_exporter.py`).

Modelling conventions:
* Python's unbounded integers (byte counters) are `ℤ`; Python floats
  (rates, thresholds, wall-clock times, intervals) are modelled exactly
  by `ℚ`.
* Python `None` is `Option.none`; an attribute that may be `None` is an
  `Option`.
* A Python call that can raise is embedded as `Except String _`; the
  error string names the Python exception class.
* Stateful methods become functions from the object's state to a result
  together with the updated state.
* External effects (psutil, DNS, the wall clock, the InfluxDB backend)
  are passed in as explicit arguments: the list of open sockets, a
  resolver function `String → Option String`, the current time `now`,
  and a `writeOk : Bool` flag telling whether a backend write succeeds.
-/

/-- `psutil.net_io_counters()` result, restricted to the two fields the
monitor reads (`bytes_sent`, `bytes_recv`).  These are cumulative byte
counters. -/
structure NetIOCounters where
  bytes_sent : ℤ
  bytes_recv : ℤ
  deriving Repr, DecidableEq

/-- The mutable state of `NetworkMonitor` (`network_monitor.py`,
`__init__`): the two thresholds (Mbps), the configured nominal polling
interval (seconds) and the previously stored counter snapshot
(`self.prev_net_io`, initially `None`). -/
structure NetworkMonitorState where
  thresholds_upload : ℚ
  thresholds_download : ℚ
  interval : ℚ
  prev_net_io : Option NetIOCounters
  deriving Repr, DecidableEq

/-- `NetworkMonitor.calculate_bandwidth` (`network_monitor.py` lines
90–112).  On the first call (`self.prev_net_io is None`) it stores the
snapshot and returns `(0, 0)`.  Otherwise it subtracts the stored
snapshot from the current one and divides by
`self.interval * 1_000_000`; Python raises `ZeroDivisionError` when that
denominator is zero.  In both non-error paths the stored snapshot is
overwritten with `current`.  Returns the `(upload, download)` Mbps pair
and the updated state. -/
def NetworkMonitorState.calculate_bandwidth (m : NetworkMonitorState)
    (current : NetIOCounters) : Except String ((ℚ × ℚ) × NetworkMonitorState) :=
  match m.prev_net_io with
  | none => .ok ((0, 0), { m with prev_net_io := some current })
  | some prev =>
    let bytes_sent : ℤ := current.bytes_sent - prev.bytes_sent
    let bytes_recv : ℤ := current.bytes_recv - prev.bytes_recv
    if m.interval * 1000000 = 0 then
      .error "ZeroDivisionError"
    else
      let upload_speed_mbps : ℚ := (bytes_sent * 8 : ℤ) / (m.interval * 1000000)
      let download_speed_mbps : ℚ := (bytes_recv * 8 : ℤ) / (m.interval * 1000000)
      .ok ((upload_speed_mbps, download_speed_mbps), { m with prev_net_io := some current })

/-- Alert direction (`"upload"` / `"download"` strings in the source). -/
inductive Direction where
  | upload
  | download
  deriving Repr, DecidableEq

/-- One alert emitted by `trigger_alert`: the direction, the current
rate and the threshold it exceeded. -/
structure AlertEvent where
  direction : Direction
  current_value : ℚ
  threshold : ℚ
  deriving Repr, DecidableEq

/-- `NetworkMonitor.check_thresholds` (`network_monitor.py` lines
114–128): two independent strict `>` comparisons, each firing
`trigger_alert` when it holds.  The embedding returns the list of
triggered alerts in source order (upload check first). -/
def NetworkMonitorState.check_thresholds (m : NetworkMonitorState)
    (upload_speed download_speed : ℚ) : List AlertEvent :=
  (if upload_speed > m.thresholds_upload then
    [⟨.upload, upload_speed, m.thresholds_upload⟩] else []) ++
  (if download_speed > m.thresholds_download then
    [⟨.download, download_speed, m.thresholds_download⟩] else [])

/-- A remote endpoint `c.raddr` of a psutil connection: IP and port. -/
structure Addr where
  ip : String
  port : ℤ
  deriving Repr, DecidableEq

/-- One entry of `psutil.net_connections(kind="inet")`: only the
`raddr` attribute is read by the monitor.  psutil reports `raddr` as an
empty tuple (falsy) for sockets with no remote endpoint, modelled as
`none`. -/
structure Conn where
  raddr : Option Addr
  deriving Repr, DecidableEq

/-- One dict produced by `get_active_connections`: keys `remote_ip`,
`remote_port`, `hostname`. -/
structure ConnectionInfo where
  remote_ip : String
  remote_port : ℤ
  hostname : String
  deriving Repr, DecidableEq

/-- `get_active_connections` (`network_monitor.py` lines 42–65).
`conns` is the psutil socket list, `gethostbyaddr` the reverse-DNS
resolver (`none` models `socket.gethostbyaddr` raising, which the code
turns into `host = None`).  Each connection with a remote endpoint
contributes one entry; `host or "N/A"` maps both `None` and the empty
string to the sentinel.  The full list is then truncated with
`results[:limit]`. -/
def get_active_connections (conns : List Conn)
    (gethostbyaddr : String → Option String) (limit : ℕ) : List ConnectionInfo :=
  (conns.filterMap (fun c =>
    c.raddr.map (fun r =>
      let host := gethostbyaddr r.ip
      { remote_ip := r.ip
        remote_port := r.port
        hostname :=
          match host with
          | none => "N/A"
          | some h => if h = "" then "N/A" else h }))).take limit

/-- The loop-exit test at the top of `NetworkMonitor.monitor`
(`network_monitor.py` line 164):
`if duration and (time.time() - start_time) > duration: break`.
`duration` is `None` or a number; Python truthiness makes `0` behave
exactly like `None`.  `elapsed` stands for `time.time() - start_time`
at that check. -/
def should_stop (duration : Option ℚ) (elapsed : ℚ) : Bool :=
  match duration with
  | none => false
  | some d => decide (d ≠ 0) && decide (elapsed > d)

/-- The index of the first loop iteration at which `monitor` breaks out,
given the elapsed wall time observed at the top of each iteration;
`none` when the loop never breaks within those iterations (it keeps
running). -/
def monitor_stop_tick (duration : Option ℚ) (elapsedTimes : List ℚ) : Option ℕ :=
  elapsedTimes.findIdx? (should_stop duration)

/-! Embedding of `metrics_exporter.py`. -/

/-- The state of `PrometheusExporter` (`metrics_exporter.py` lines
37–75): the port, the current values of the two gauges created in
`__init__`, and the `server_started` flag. -/
structure PrometheusExporterState where
  port : ℤ
  upload_gauge : ℚ
  download_gauge : ℚ
  server_started : Bool
  deriving Repr, DecidableEq

/-- The names of the Prometheus instruments created by
`PrometheusExporter.__init__` (lines 51–52): exactly two `Gauge`
objects, `network_upload_mbps` and `network_download_mbps`.  No other
instrument is ever created by the class. -/
def prometheusInstrumentNames : List String :=
  ["network_upload_mbps", "network_download_mbps"]

/-- `PrometheusExporter.__init__` (lines 40–53): both gauges start at
the `prometheus_client` default value 0 and the server is not yet
started. -/
def PrometheusExporterState.init (port : ℤ) : PrometheusExporterState :=
  { port := port, upload_gauge := 0, download_gauge := 0, server_started := false }

/-- `PrometheusExporter.export_metrics` (lines 62–75): lazily start the
server on first call, then set the two gauges.  The method takes only
the two speeds; it receives no tags and no connection snapshot. -/
def PrometheusExporterState.export_metrics (s : PrometheusExporterState)
    (upload_speed download_speed : ℚ) : PrometheusExporterState :=
  let s := if s.server_started then s else { s with server_started := true }
  { s with upload_gauge := upload_speed, download_gauge := download_speed }

/-- An `influxdb_client` `Point`: measurement name, tags and fields in
insertion order. -/
structure Point where
  measurement : String
  tags : List (String × String)
  fields : List (String × ℚ)
  deriving Repr, DecidableEq

/-- The single `Point` built by `InfluxDBExporter.export_metrics`
(lines 132–142): measurement `network_bandwidth`, the caller-supplied
tags in dict order, then the fields `upload_mbps` and
`download_mbps`. -/
def influxBandwidthPoint (upload_speed download_speed : ℚ)
    (tags : List (String × String)) : Point :=
  { measurement := "network_bandwidth"
    tags := tags
    fields := [("upload_mbps", upload_speed), ("download_mbps", download_speed)] }

/-- The state of `InfluxDBExporter` (lines 78–116): connection
configuration, batching parameters, the local point buffer and the time
of the last flush (initialised to the construction time). -/
structure InfluxDBExporterState where
  bucket : String
  batch_size : ℕ
  flush_interval : ℚ
  points_buffer : List Point
  last_flush_time : ℚ
  deriving Repr, DecidableEq

/-- `InfluxDBExporter.__init__` (lines 81–116) with its default
`batch_size=10` and `flush_interval=10`; `now` is `time.time()` at
construction. -/
def InfluxDBExporterState.init (bucket : String) (now : ℚ) : InfluxDBExporterState :=
  { bucket := bucket, batch_size := 10, flush_interval := 10
    points_buffer := [], last_flush_time := now }

/-- `InfluxDBExporter.flush` (lines 153–164).  An empty buffer returns
immediately.  Otherwise `write_api.write` is attempted: on success
(`writeOk = true`) the buffer is cleared and `last_flush_time` reset to
the current time; on failure the exception is caught, the buffer and
`last_flush_time` are left untouched. -/
def InfluxDBExporterState.flush (s : InfluxDBExporterState)
    (writeOk : Bool) (now : ℚ) : InfluxDBExporterState :=
  if s.points_buffer = [] then s
  else if writeOk then { s with points_buffer := [], last_flush_time := now }
  else s

/-- `InfluxDBExporter.export_metrics` (lines 118–151): build one
bandwidth point, append it to the buffer, then flush when the buffered
count reaches `batch_size` or `flush_interval` seconds have passed
since the last flush.  `now` is `time.time()` at the trigger check and
`writeOk` tells whether a backend write would succeed. -/
def InfluxDBExporterState.export_metrics (s : InfluxDBExporterState)
    (upload_speed download_speed : ℚ) (tags : List (String × String))
    (now : ℚ) (writeOk : Bool) : InfluxDBExporterState :=
  let point := influxBandwidthPoint upload_speed download_speed tags
  let s := { s with points_buffer := s.points_buffer ++ [point] }
  if s.points_buffer.length ≥ s.batch_size ∨ now - s.last_flush_time ≥ s.flush_interval then
    s.flush writeOk now
  else s

/-- One registered sink of the `MetricsExporter` fan-out
(`self.exporters`), together with a `failing` flag modelling a sink
whose method calls raise (the exception the fan-out must catch). -/
inductive Exporter where
  | prometheus (s : PrometheusExporterState) (failing : Bool)
  | influxdb (s : InfluxDBExporterState) (failing : Bool)
  deriving Repr, DecidableEq

/-- The call the fan-out body dispatches to one sink
(`metrics_exporter.py` lines 265–270): an `isinstance` test passes only
the two speeds to a `PrometheusExporter` but the speeds plus the tags
to an `InfluxDBExporter`.  `tags = none` records that no tags were
handed to the sink. -/
structure DeliveredCall where
  upload : ℚ
  download : ℚ
  tags : Option (List (String × String))
  deriving Repr, DecidableEq

/-- The arguments `MetricsExporter.export_metrics` dispatches to a
given sink (the `isinstance` branches, lines 267–270). -/
def dispatchedCall (e : Exporter) (upload_speed download_speed : ℚ)
    (tags : List (String × String)) : DeliveredCall :=
  match e with
  | .prometheus _ _ => { upload := upload_speed, download := download_speed, tags := none }
  | .influxdb _ _ => { upload := upload_speed, download := download_speed, tags := some tags }

/-- The loop body of `MetricsExporter.export_metrics` for one sink
(lines 265–272): call the sink's own `export_metrics` inside
`try/except`; a raising sink leaves its state unchanged and the
exception is swallowed. -/
def exportOneSink (e : Exporter) (upload_speed download_speed : ℚ)
    (tags : List (String × String)) (now : ℚ) (writeOk : Bool) : Exporter :=
  match e with
  | .prometheus s failing =>
    if failing then .prometheus s failing
    else .prometheus (s.export_metrics upload_speed download_speed) failing
  | .influxdb s failing =>
    if failing then .influxdb s failing
    else .influxdb (s.export_metrics upload_speed download_speed tags now writeOk) failing

/-- `MetricsExporter.export_metrics` (lines 251–272): iterate over the
registered exporters in order, dispatching to each inside `try/except`
so one sink's exception never stops the loop or propagates. -/
def MetricsExporter.export_metrics (exporters : List Exporter)
    (upload_speed download_speed : ℚ) (tags : List (String × String))
    (now : ℚ) (writeOk : Bool) : List Exporter :=
  match exporters with
  | [] => []
  | e :: rest =>
    exportOneSink e upload_speed download_speed tags now writeOk ::
      MetricsExporter.export_metrics rest upload_speed download_speed tags now writeOk

/-- The loop body of `MetricsExporter.close` for one sink (lines
274–281): `hasattr(exporter, 'close')` holds only for
`InfluxDBExporter` (it flushes, then closes the client);
`PrometheusExporter` defines no `close` and is skipped.  A raising
`close` is caught and leaves the sink as it was. -/
def closeOneSink (e : Exporter) (now : ℚ) (writeOk : Bool) : Exporter :=
  match e with
  | .prometheus s failing => .prometheus s failing
  | .influxdb s failing =>
    if failing then .influxdb s failing
    else .influxdb (s.flush writeOk now) failing

/-- `MetricsExporter.close` (lines 274–281): iterate over every
registered exporter inside `try/except`. -/
def MetricsExporter.close (exporters : List Exporter)
    (now : ℚ) (writeOk : Bool) : List Exporter :=
  match exporters with
  | [] => []
  | e :: rest => closeOneSink e now writeOk :: MetricsExporter.close rest now writeOk

/-! Spec-side definitions (for refinement comparison only). -/

/-- Modelled from the spec: the rate formula of §4.1/§8,
`uploadMbps = (cur.bytesSent - prev.bytesSent) * 8 / (elapsed * 1e6)`
(download analogous), where `elapsed` is the actual wall time between
the two counter snapshots. -/
def spec_compute_rates (prev current : NetIOCounters) (elapsed : ℚ) : ℚ × ℚ :=
  (((current.bytes_sent - prev.bytes_sent) * 8 : ℤ) / (elapsed * 1000000),
   ((current.bytes_recv - prev.bytes_recv) * 8 : ℤ) / (elapsed * 1000000))

/-- Modelled from the spec: §4.1/§7 demand that a non-positive elapsed
time between snapshots fail with an `InvalidInterval` condition, and
otherwise yield the §8 rate formula. -/
def spec_compute_with_elapsed (prev current : NetIOCounters) (elapsed : ℚ) :
    Except String (ℚ × ℚ) :=
  if elapsed ≤ 0 then .error "InvalidInterval"
  else .ok (((current.bytes_sent - prev.bytes_sent) * 8 : ℤ) / (elapsed * 1000000),
            ((current.bytes_recv - prev.bytes_recv) * 8 : ℤ) / (elapsed * 1000000))

/-! Claim C1. -/

/-- C1 (counterexample): the claim says a non-first call divides by the
actual elapsed wall time between the snapshots.  Take a monitor
configured with a nominal interval of 1 s, a stored snapshot and a
current snapshot actually taken 2 s apart with a 2 000 000-byte sent
delta (so `cur.bytesSent ≥ prev.bytesSent` and elapsed `2 > 0`): the
code returns 16 Mbps — the delta divided by the configured interval —
while the claimed formula at the actual elapsed time yields 8 Mbps. -/
theorem C1_counterexample :
    NetworkMonitorState.calculate_bandwidth
        ⟨100, 150, 1, some ⟨0, 0⟩⟩ ⟨2000000, 0⟩ =
      .ok ((16, 0), ⟨100, 150, 1, some ⟨2000000, 0⟩⟩) ∧
    spec_compute_rates ⟨0, 0⟩ ⟨2000000, 0⟩ 2 = (8, 0) ∧
    (16 : ℚ) ≠ 8 := by
  refine ⟨?_, ?_, by norm_num⟩
  · simp only [NetworkMonitorState.calculate_bandwidth]
    norm_num
  · simp only [spec_compute_rates]
    norm_num

/-- C1 (amended): a non-first call to `calculate_bandwidth` with
`cur.bytesSent ≥ prev.bytesSent` and a positive configured interval
returns `uploadMbps = (cur.bytesSent - prev.bytesSent) * 8 /
(interval * 1e6)` (download analogous from `bytesRecv`), where
`interval` is the configured nominal polling interval — the actual
wall time between the snapshots is never consulted — and the current
snapshot becomes the new stored baseline. -/
theorem C1_bandwidth_divides_by_configured_interval
    (tu td iv : ℚ) (prev current : NetIOCounters)
    (hpos : 0 < iv) (_hmono : prev.bytes_sent ≤ current.bytes_sent) :
    NetworkMonitorState.calculate_bandwidth ⟨tu, td, iv, some prev⟩ current =
      .ok ((((current.bytes_sent - prev.bytes_sent) * 8 : ℤ) / (iv * 1000000),
            ((current.bytes_recv - prev.bytes_recv) * 8 : ℤ) / (iv * 1000000)),
           ⟨tu, td, iv, some current⟩) := by
  have hne : iv * 1000000 ≠ 0 := by positivity
  simp only [NetworkMonitorState.calculate_bandwidth]
  rw [if_neg hne]

/-- Witness for C1: thresholds 100/150, interval 1 s, counters growing
by 2 000 000 sent bytes. -/
theorem C1_witness :
    NetworkMonitorState.calculate_bandwidth
        ⟨100, 150, 1, some ⟨0, 0⟩⟩ ⟨2000000, 0⟩ =
      .ok ((((2000000 - 0) * 8 : ℤ) / ((1 : ℚ) * 1000000),
            ((0 - 0) * 8 : ℤ) / ((1 : ℚ) * 1000000)),
           ⟨100, 150, 1, some ⟨2000000, 0⟩⟩) :=
  C1_bandwidth_divides_by_configured_interval 100 150 1 ⟨0, 0⟩ ⟨2000000, 0⟩
    (by norm_num) (by norm_num)

/-! Claim C2. -/

/-- C2 (counterexample): the claim says a negative delta is clamped to
0.  With a stored snapshot of 1 000 000 sent bytes, a current snapshot
of 0 sent bytes and interval 1 s, the code returns −8 Mbps: the rate is
negative, not clamped to 0. -/
theorem C2_counterexample :
    NetworkMonitorState.calculate_bandwidth
        ⟨100, 150, 1, some ⟨1000000, 0⟩⟩ ⟨0, 0⟩ =
      .ok ((-8, 0), ⟨100, 150, 1, some ⟨0, 0⟩⟩) ∧
    (-8 : ℚ) ≠ 0 ∧ (-8 : ℚ) < 0 := by
  refine ⟨?_, by norm_num, by norm_num⟩
  simp only [NetworkMonitorState.calculate_bandwidth]
  norm_num

/-- C2 (amended): on a non-first call with `cur.bytesSent <
prev.bytesSent` (counter wrap/reset) and a positive configured
interval, the code performs no clamping and returns a strictly negative
`uploadMbps`; the current snapshot is nevertheless stored as the new
baseline. -/
theorem C2_counter_wrap_goes_negative
    (tu td iv : ℚ) (prev current : NetIOCounters)
    (hpos : 0 < iv) (hwrap : current.bytes_sent < prev.bytes_sent) :
    ∃ rates : ℚ × ℚ,
      NetworkMonitorState.calculate_bandwidth ⟨tu, td, iv, some prev⟩ current =
        .ok (rates, ⟨tu, td, iv, some current⟩) ∧ rates.1 < 0 := by
  have hne : iv * 1000000 ≠ 0 := by positivity
  refine ⟨(((current.bytes_sent - prev.bytes_sent) * 8 : ℤ) / (iv * 1000000),
          ((current.bytes_recv - prev.bytes_recv) * 8 : ℤ) / (iv * 1000000)), ?_, ?_⟩
  · simp only [NetworkMonitorState.calculate_bandwidth]
    rw [if_neg hne]
  · have hnum : (((current.bytes_sent - prev.bytes_sent) * 8 : ℤ) : ℚ) < 0 := by
      have : (current.bytes_sent - prev.bytes_sent) * 8 < 0 := by
        apply mul_neg_of_neg_of_pos <;> omega
      exact_mod_cast this
    have hden : (0 : ℚ) < iv * 1000000 := by positivity
    exact div_neg_of_neg_of_pos hnum hden

/-- Witness for C2: stored snapshot 1 000 000 sent bytes, current 0. -/
theorem C2_witness :
    ∃ rates : ℚ × ℚ,
      NetworkMonitorState.calculate_bandwidth
          ⟨100, 150, 1, some ⟨1000000, 0⟩⟩ ⟨0, 0⟩ =
        .ok (rates, ⟨100, 150, 1, some ⟨0, 0⟩⟩) ∧ rates.1 < 0 :=
  C2_counter_wrap_goes_negative 100 150 1 ⟨1000000, 0⟩ ⟨0, 0⟩
    (by norm_num) (by norm_num)

/-! Claim C3. -/

/-- C3 (counterexample): the claim says a non-positive elapsed time
between the snapshots makes the computation fail with `InvalidInterval`.
Take two snapshots read at the same wall-clock instant (elapsed 0) on a
monitor with interval 1 s: the spec-modelled `compute` fails with
`InvalidInterval`, but the code succeeds and returns 8 Mbps — it never
consults the elapsed time at all. -/
theorem C3_counterexample :
    spec_compute_with_elapsed ⟨0, 0⟩ ⟨1000000, 0⟩ 0 = .error "InvalidInterval" ∧
    NetworkMonitorState.calculate_bandwidth
        ⟨100, 150, 1, some ⟨0, 0⟩⟩ ⟨1000000, 0⟩ =
      .ok ((8, 0), ⟨100, 150, 1, some ⟨1000000, 0⟩⟩) := by
  constructor
  · simp [spec_compute_with_elapsed]
  · simp only [NetworkMonitorState.calculate_bandwidth]
    norm_num

/-- C3 (amended): the code performs no validation of the elapsed time
between snapshots and has no `InvalidInterval` condition: a non-first
call succeeds (with rates `delta * 8 / (interval * 1e6)`) for every
configured interval other than 0, regardless of how much or how little
wall time separates the snapshots; only a configured interval of 0
makes Python's division raise (`ZeroDivisionError`). -/
theorem C3_no_elapsed_validation
    (tu td iv : ℚ) (prev current : NetIOCounters) :
    (iv ≠ 0 →
      NetworkMonitorState.calculate_bandwidth ⟨tu, td, iv, some prev⟩ current =
        .ok ((((current.bytes_sent - prev.bytes_sent) * 8 : ℤ) / (iv * 1000000),
              ((current.bytes_recv - prev.bytes_recv) * 8 : ℤ) / (iv * 1000000)),
             ⟨tu, td, iv, some current⟩)) ∧
    (iv = 0 →
      NetworkMonitorState.calculate_bandwidth ⟨tu, td, iv, some prev⟩ current =
        .error "ZeroDivisionError") := by
  constructor
  · intro h
    have hne : iv * 1000000 ≠ 0 := mul_ne_zero h (by norm_num)
    simp only [NetworkMonitorState.calculate_bandwidth]
    rw [if_neg hne]
  · intro h
    subst h
    simp only [NetworkMonitorState.calculate_bandwidth]
    norm_num

/-- Witness for C3: interval 1 s succeeds, interval 0 raises. -/
theorem C3_witness :
    NetworkMonitorState.calculate_bandwidth
        ⟨100, 150, 1, some ⟨0, 0⟩⟩ ⟨1000000, 0⟩ =
      .ok ((((1000000 - 0) * 8 : ℤ) / ((1 : ℚ) * 1000000),
            ((0 - 0) * 8 : ℤ) / ((1 : ℚ) * 1000000)),
           ⟨100, 150, 1, some ⟨1000000, 0⟩⟩) ∧
    NetworkMonitorState.calculate_bandwidth
        ⟨100, 150, 0, some ⟨0, 0⟩⟩ ⟨1000000, 0⟩ = .error "ZeroDivisionError" :=
  ⟨(C3_no_elapsed_validation 100 150 1 ⟨0, 0⟩ ⟨1000000, 0⟩).1 (by norm_num),
   (C3_no_elapsed_validation 100 150 0 ⟨0, 0⟩ ⟨1000000, 0⟩).2 rfl⟩

/-! Claim C4. -/

/-- C4 (counterexample): the claim says the Prometheus sink maintains
four instruments including an active-connection-count gauge and a
per-connection indicator gauge.  `PrometheusExporter.__init__` creates
exactly two instruments, and neither `network_active_connections` nor
`network_connection_info` is among them; `export_metrics` does not even
accept a connection snapshot, so there is no indicator set to clear. -/
theorem C4_counterexample :
    prometheusInstrumentNames.length = 2 ∧
    "network_active_connections" ∉ prometheusInstrumentNames ∧
    "network_connection_info" ∉ prometheusInstrumentNames := by
  refine ⟨rfl, ?_, ?_⟩ <;> simp [prometheusInstrumentNames]

/-- C4 (amended): the Prometheus sink maintains exactly two
instruments, the upload gauge `network_upload_mbps` and the download
gauge `network_download_mbps`; every export call sets both gauges to
the supplied speeds (starting the HTTP server lazily on the first
call); there are no connection instruments and export receives no
connection data, so nothing is cleared or rebuilt per export. -/
theorem C4_prometheus_two_gauges (s : PrometheusExporterState)
    (upload_speed download_speed : ℚ) :
    (s.export_metrics upload_speed download_speed).upload_gauge = upload_speed ∧
    (s.export_metrics upload_speed download_speed).download_gauge = download_speed ∧
    (s.export_metrics upload_speed download_speed).server_started = true ∧
    (s.export_metrics upload_speed download_speed).port = s.port ∧
    prometheusInstrumentNames.length = 2 := by
  simp only [PrometheusExporterState.export_metrics]
  by_cases h : s.server_started = true
  · simp [h, prometheusInstrumentNames]
  · simp [h, prometheusInstrumentNames]

/-! Claim C5. -/

/-- C5 (counterexample): the claim says each export also appends one
connection point (field `active=1`) per connection in the supplied
snapshot.  A fresh Influx sink's export (5 Mbps up, 3 Mbps down, one
caller-supplied tag) buffers exactly one point — the bandwidth point —
and no buffered point has measurement `network_connection` or an
`active` field; indeed `export_metrics` takes no connection snapshot
at all, so even with active connections present only one point is
appended. -/
theorem C5_counterexample :
    (InfluxDBExporterState.export_metrics
        (InfluxDBExporterState.init "network_metrics" 0) 5 3 [("host", "h")] 0 true).points_buffer =
      [{ measurement := "network_bandwidth", tags := [("host", "h")],
         fields := [("upload_mbps", 5), ("download_mbps", 3)] }] ∧
    ((InfluxDBExporterState.export_metrics
        (InfluxDBExporterState.init "network_metrics" 0) 5 3 [("host", "h")] 0 true).points_buffer.filter
      (fun p => decide (p.measurement = "network_connection") ||
                p.fields.any (fun f => decide (f.1 = "active")))) = [] := by
  constructor
  · simp only [InfluxDBExporterState.export_metrics, InfluxDBExporterState.init,
      influxBandwidthPoint, InfluxDBExporterState.flush]
    norm_num
  · simp only [InfluxDBExporterState.export_metrics, InfluxDBExporterState.init,
      influxBandwidthPoint, InfluxDBExporterState.flush]
    norm_num [List.filter]
    decide

/-- C5 (amended): every export call on the Influx sink appends exactly
one point to the buffer — the bandwidth point with measurement
`network_bandwidth`, the caller-supplied tags and the two fields
`upload_mbps` and `download_mbps` — and no connection points: the sink
accepts no connection snapshot.  (Stated for exports that do not reach
a flush trigger, so the appended buffer is observable.) -/
theorem C5_influx_one_bandwidth_point_per_export
    (s : InfluxDBExporterState) (upload_speed download_speed : ℚ)
    (tags : List (String × String)) (now : ℚ) (writeOk : Bool)
    (hnotrig : ¬(s.points_buffer.length + 1 ≥ s.batch_size ∨
                 now - s.last_flush_time ≥ s.flush_interval)) :
    (s.export_metrics upload_speed download_speed tags now writeOk).points_buffer =
      s.points_buffer ++ [influxBandwidthPoint upload_speed download_speed tags] ∧
    (influxBandwidthPoint upload_speed download_speed tags).measurement =
      "network_bandwidth" ∧
    (influxBandwidthPoint upload_speed download_speed tags).tags = tags ∧
    (influxBandwidthPoint upload_speed download_speed tags).fields =
      [("upload_mbps", upload_speed), ("download_mbps", download_speed)] := by
  refine ⟨?_, rfl, rfl, rfl⟩
  simp only [InfluxDBExporterState.export_metrics, List.length_append,
    List.length_singleton]
  rw [if_neg hnotrig]

/-- Witness for C5: a fresh sink (batch size 10, flush interval 10 s)
exporting immediately after construction. -/
theorem C5_witness :
    (0 + 1 ≥ 10 ∨ (0 : ℚ) - 0 ≥ 10) = False ∧
    (InfluxDBExporterState.export_metrics
        (InfluxDBExporterState.init "network_metrics" 0) 5 3 [("host", "h")] 0 true).points_buffer =
      [] ++ [influxBandwidthPoint 5 3 [("host", "h")]] :=
  ⟨by norm_num,
   (C5_influx_one_bandwidth_point_per_export
      (InfluxDBExporterState.init "network_metrics" 0) 5 3 [("host", "h")] 0 true
      (by norm_num [InfluxDBExporterState.init])).1⟩

/-! Claim C6. -/

/-- C6: the Influx sink's buffering policy.  With `buffered` the buffer
after the one point of this export is appended:
(a) when neither trigger holds (count `< batch_size` and elapsed since
last flush `< flush_interval`), no flush happens — the buffer keeps
every point and the last-flush time is unchanged;
(b) when a trigger holds and the backend write succeeds, the buffer is
emptied and the last-flush time reset;
(c) when a trigger holds but the write fails, the whole buffer —
including the new point — is kept for retry: nothing is dropped;
(d) a flush on an empty buffer does nothing;
(e) a failing flush never changes the state at all;
(f) a successful flush of a non-empty buffer empties it;
(g) the constructor defaults are `batch_size = 10` and
`flush_interval = 10` seconds. -/
theorem C6_influx_buffer_policy
    (s s' : InfluxDBExporterState) (upload_speed download_speed : ℚ)
    (tags : List (String × String)) (now t : ℚ) (b : String) :
    (¬(s.points_buffer.length + 1 ≥ s.batch_size ∨
        now - s.last_flush_time ≥ s.flush_interval) →
      (s.export_metrics upload_speed download_speed tags now true).points_buffer =
        s.points_buffer ++ [influxBandwidthPoint upload_speed download_speed tags] ∧
      (s.export_metrics upload_speed download_speed tags now true).last_flush_time =
        s.last_flush_time) ∧
    ((s.points_buffer.length + 1 ≥ s.batch_size ∨
        now - s.last_flush_time ≥ s.flush_interval) →
      (s.export_metrics upload_speed download_speed tags now true).points_buffer = [] ∧
      (s.export_metrics upload_speed download_speed tags now true).last_flush_time = now) ∧
    ((s.points_buffer.length + 1 ≥ s.batch_size ∨
        now - s.last_flush_time ≥ s.flush_interval) →
      (s.export_metrics upload_speed download_speed tags now false).points_buffer =
        s.points_buffer ++ [influxBandwidthPoint upload_speed download_speed tags]) ∧
    (s'.points_buffer = [] → s'.flush true t = s') ∧
    s'.flush false t = s' ∧
    (s'.points_buffer ≠ [] →
      (s'.flush true t).points_buffer = [] ∧ (s'.flush true t).last_flush_time = t) ∧
    ((InfluxDBExporterState.init b t).batch_size = 10 ∧
     (InfluxDBExporterState.init b t).flush_interval = 10) := by
  have hne : s.points_buffer ++ [influxBandwidthPoint upload_speed download_speed tags] ≠ [] := by
    simp
  refine ⟨?_, ?_, ?_, ?_, ?_, ?_, rfl, rfl⟩
  · intro h
    simp only [InfluxDBExporterState.export_metrics, List.length_append,
      List.length_singleton]
    rw [if_neg h]
    exact ⟨rfl, rfl⟩
  · intro h
    simp only [InfluxDBExporterState.export_metrics, List.length_append,
      List.length_singleton]
    rw [if_pos h]
    simp only [InfluxDBExporterState.flush]
    rw [if_neg hne, if_pos trivial]
    exact ⟨rfl, rfl⟩
  · intro h
    simp only [InfluxDBExporterState.export_metrics, List.length_append,
      List.length_singleton]
    rw [if_pos h]
    simp only [InfluxDBExporterState.flush]
    rw [if_neg hne]
    rfl
  · intro h
    simp only [InfluxDBExporterState.flush]
    rw [if_pos h]
  · simp only [InfluxDBExporterState.flush]
    by_cases h : s'.points_buffer = []
    · rw [if_pos h]
    · rw [if_neg h, if_neg (by simp)]
  · intro h
    simp only [InfluxDBExporterState.flush]
    rw [if_neg h, if_pos trivial]
    exact ⟨rfl, rfl⟩

/-- Witness for C6: a sink with batch size 10 whose buffer holds 9
points gets its 10th point from an export and is flushed empty on a
successful write; the same export against a failing backend keeps all
10 points. -/
theorem C6_witness :
    (InfluxDBExporterState.export_metrics
        ⟨"b", 10, 10, List.replicate 9 (influxBandwidthPoint 1 1 []), 0⟩
        5 3 [] 1 true).points_buffer = [] ∧
    (InfluxDBExporterState.export_metrics
        ⟨"b", 10, 10, List.replicate 9 (influxBandwidthPoint 1 1 []), 0⟩
        5 3 [] 1 false).points_buffer =
      List.replicate 9 (influxBandwidthPoint 1 1 []) ++ [influxBandwidthPoint 5 3 []] ∧
    (InfluxDBExporterState.init "b" 0).batch_size = 10 :=
  ⟨((C6_influx_buffer_policy
      ⟨"b", 10, 10, List.replicate 9 (influxBandwidthPoint 1 1 []), 0⟩
      (InfluxDBExporterState.init "b" 0) 5 3 [] 1 0 "b").2.1
      (by left; simp [List.length_replicate])).1,
   (C6_influx_buffer_policy
      ⟨"b", 10, 10, List.replicate 9 (influxBandwidthPoint 1 1 []), 0⟩
      (InfluxDBExporterState.init "b" 0) 5 3 [] 1 0 "b").2.2.1
      (by left; simp [List.length_replicate]),
   ((C6_influx_buffer_policy
      ⟨"b", 10, 10, List.replicate 9 (influxBandwidthPoint 1 1 []), 0⟩
      (InfluxDBExporterState.init "b" 0) 5 3 [] 1 0 "b").2.2.2.2.2.2).1⟩

/-! Claim C7. -/

/-- C7 (counterexample): the claim says the fan-out dispatches the same
sample, tags, and connections to every sink.  With one Prometheus sink
and one Influx sink and a non-empty tag set, the `isinstance` dispatch
hands the tags only to the Influx sink: the Prometheus sink's call
carries no tags (and no sink anywhere receives connections — the
fan-out's `export_metrics` has no such parameter), so the two sinks do
not receive the same call. -/
theorem C7_counterexample :
    dispatchedCall (.prometheus (PrometheusExporterState.init 8000) false)
        5 3 [("host", "h")] ≠
      dispatchedCall (.influxdb (InfluxDBExporterState.init "network_metrics" 0) false)
        5 3 [("host", "h")] ∧
    (dispatchedCall (.prometheus (PrometheusExporterState.init 8000) false)
        5 3 [("host", "h")]).tags = none ∧
    (dispatchedCall (.influxdb (InfluxDBExporterState.init "network_metrics" 0) false)
        5 3 [("host", "h")]).tags = some [("host", "h")] := by
  refine ⟨?_, rfl, rfl⟩
  simp [dispatchedCall]

/-- C7 (amended): the fan-out's export visits every registered sink in
registration order, handing each the same upload/download sample — but
tags only to Influx sinks (Prometheus sinks are called without them)
and connections to none, since the interface has no connections
parameter.  Each sink's outcome is `exportOneSink` of that sink alone,
so an exception raised by one sink (its `failing` flag) is caught and
neither prevents the remaining sinks from being dispatched to nor
propagates.  Likewise `close` visits every sink regardless of
individual failures (invoking `close` on those that define one — the
Influx sinks; Prometheus sinks define no `close` and are skipped by the
`hasattr` guard). -/
theorem C7_fanout_isolation (exporters : List Exporter)
    (upload_speed download_speed : ℚ) (tags : List (String × String))
    (now : ℚ) (writeOk : Bool) :
    MetricsExporter.export_metrics exporters upload_speed download_speed tags now writeOk =
      exporters.map (fun e => exportOneSink e upload_speed download_speed tags now writeOk) ∧
    MetricsExporter.close exporters now writeOk =
      exporters.map (fun e => closeOneSink e now writeOk) ∧
    (∀ e ∈ exporters,
      (dispatchedCall e upload_speed download_speed tags).upload = upload_speed ∧
      (dispatchedCall e upload_speed download_speed tags).download = download_speed) := by
  refine ⟨?_, ?_, ?_⟩
  · induction exporters with
    | nil => rfl
    | cons e rest ih => simp [MetricsExporter.export_metrics, ih]
  · induction exporters with
    | nil => rfl
    | cons e rest ih => simp [MetricsExporter.close, ih]
  · intro e _he
    cases e <;> exact ⟨rfl, rfl⟩

/-- Witness for C7: a failing Prometheus sink registered before a
healthy Influx sink; the healthy sink still receives the export (its
buffer gains the bandwidth point) and the failing sink is untouched. -/
theorem C7_witness :
    MetricsExporter.export_metrics
        [.prometheus (PrometheusExporterState.init 8000) true,
         .influxdb (InfluxDBExporterState.init "network_metrics" 0) false]
        5 3 [("host", "h")] 0 true =
      [.prometheus (PrometheusExporterState.init 8000) true,
       .influxdb ((InfluxDBExporterState.init "network_metrics" 0).export_metrics
          5 3 [("host", "h")] 0 true) false] ∧
    (dispatchedCall (.influxdb (InfluxDBExporterState.init "network_metrics" 0) false)
        5 3 [("host", "h")]).upload = 5 := by
  constructor
  · rw [(C7_fanout_isolation
        [.prometheus (PrometheusExporterState.init 8000) true,
         .influxdb (InfluxDBExporterState.init "network_metrics" 0) false]
        5 3 [("host", "h")] 0 true).1]
    rfl
  · exact ((C7_fanout_isolation
        [.prometheus (PrometheusExporterState.init 8000) true,
         .influxdb (InfluxDBExporterState.init "network_metrics" 0) false]
        5 3 [("host", "h")] 0 true).2.2
        (.influxdb (InfluxDBExporterState.init "network_metrics" 0) false)
        (by simp)).1

/-! Claim C8. -/

/-- The IP/port projection of the snapshot entries does not depend on
the resolver. -/
theorem get_active_connections_key_eq (resolve : String → Option String)
    (conns : List Conn) :
    (conns.filterMap (fun c =>
      c.raddr.map (fun r =>
        ({ remote_ip := r.ip
           remote_port := r.port
           hostname :=
             match resolve r.ip with
             | none => "N/A"
             | some h => if h = "" then "N/A" else h } : ConnectionInfo)))).map
        (fun e => (e.remote_ip, e.remote_port)) =
    conns.filterMap (fun c => c.raddr.map (fun r => (r.ip, r.port))) := by
  induction conns with
  | nil => rfl
  | cons c rest ih =>
    cases hc : c.raddr with
    | none => simp [List.filterMap_cons, hc, ih]
    | some r => simp [List.filterMap_cons, hc, ih]

/-- C8: for every socket list, resolver and limit:
(a) the snapshot has at most `limit` entries (`results[:limit]`);
(b) provided the counter source reports a non-empty IP in every present
remote endpoint (psutil's contract for `raddr`), every returned entry
has a non-empty `remote_ip` — sockets without a remote endpoint were
filtered out;
(c) an entry whose reverse-DNS lookup failed still appears, with the
sentinel `"N/A"` as its hostname;
(d) which connections appear (their IPs and ports, in order) is
entirely independent of the resolver — a lookup failure never removes
an entry or makes the snapshot fail. -/
theorem C8_snapshot_limit_and_sentinel (conns : List Conn)
    (resolveA resolveB : String → Option String) (limit : ℕ) :
    (get_active_connections conns resolveA limit).length ≤ limit ∧
    ((∀ c ∈ conns, ∀ r, c.raddr = some r → r.ip ≠ "") →
      ∀ e ∈ get_active_connections conns resolveA limit, e.remote_ip ≠ "") ∧
    (∀ e ∈ get_active_connections conns resolveA limit,
      resolveA e.remote_ip = none → e.hostname = "N/A") ∧
    (get_active_connections conns resolveA limit).map
        (fun e => (e.remote_ip, e.remote_port)) =
      (get_active_connections conns resolveB limit).map
        (fun e => (e.remote_ip, e.remote_port)) := by
  refine ⟨List.length_take_le limit _, ?_, ?_, ?_⟩
  · intro hip e he
    have he' := List.take_subset limit _ he
    obtain ⟨c, hc, hfc⟩ := List.mem_filterMap.mp he'
    cases hr : c.raddr with
    | none => rw [hr] at hfc; exact absurd hfc (by simp)
    | some r =>
      rw [hr] at hfc
      have he2 : e = ⟨r.ip, r.port,
          match resolveA r.ip with
          | none => "N/A"
          | some h => if h = "" then "N/A" else h⟩ := by
        symm
        simpa using hfc
      rw [he2]
      exact hip c hc r hr
  · intro e he hres
    have he' := List.take_subset limit _ he
    obtain ⟨c, hc, hfc⟩ := List.mem_filterMap.mp he'
    cases hr : c.raddr with
    | none => rw [hr] at hfc; exact absurd hfc (by simp)
    | some r =>
      rw [hr] at hfc
      have he2 : e = ⟨r.ip, r.port,
          match resolveA r.ip with
          | none => "N/A"
          | some h => if h = "" then "N/A" else h⟩ := by
        symm
        simpa using hfc
      subst he2
      dsimp only at hres ⊢
      rw [hres]
  · simp only [get_active_connections, List.map_take]
    rw [get_active_connections_key_eq resolveA conns,
      get_active_connections_key_eq resolveB conns]

/-- Witness for C8: one remote socket to 8.8.8.8:443 and one socket
with no remote endpoint, under a resolver that always fails. -/
theorem C8_witness :
    (get_active_connections [⟨some ⟨"8.8.8.8", 443⟩⟩, ⟨none⟩]
        (fun _ => none) 5).length ≤ 5 ∧
    ("8.8.8.8" : String) ≠ "" ∧
    (⟨"8.8.8.8", 443, "N/A"⟩ : ConnectionInfo).hostname = "N/A" := by
  have hmem : (⟨"8.8.8.8", 443, "N/A"⟩ : ConnectionInfo) ∈
      get_active_connections [⟨some ⟨"8.8.8.8", 443⟩⟩, ⟨none⟩] (fun _ => none) 5 := by
    simp [get_active_connections]
  have hip : ∀ c ∈ [(⟨some ⟨"8.8.8.8", 443⟩⟩ : Conn), ⟨none⟩],
      ∀ r, c.raddr = some r → r.ip ≠ "" := by
    intro c hc r hr
    cases hc with
    | head =>
      injection hr with h
      subst h
      decide
    | tail _ hc2 =>
      cases hc2 with
      | head => exact absurd hr (by simp)
      | tail _ hc3 => cases hc3
  have hfail : ((⟨"8.8.8.8", 443, "N/A"⟩ : ConnectionInfo).remote_ip = "8.8.8.8") := rfl
  refine ⟨(C8_snapshot_limit_and_sentinel [⟨some ⟨"8.8.8.8", 443⟩⟩, ⟨none⟩]
      (fun _ => none) (fun _ => some "dns.google") 5).1, ?_, ?_⟩
  · exact (C8_snapshot_limit_and_sentinel [⟨some ⟨"8.8.8.8", 443⟩⟩, ⟨none⟩]
      (fun _ => none) (fun _ => some "dns.google") 5).2.1 hip _ hmem
  · exact (C8_snapshot_limit_and_sentinel [⟨some ⟨"8.8.8.8", 443⟩⟩, ⟨none⟩]
      (fun _ => none) (fun _ => some "dns.google") 5).2.2.1 _ hmem rfl

/-! Claim C9. -/

/-- C9: `check_thresholds` fires the upload alert exactly when the
upload rate is strictly greater than the upload threshold, and the
download alert exactly when the download rate is strictly greater than
the download threshold (a rate equal to the threshold never alerts);
the two directions are evaluated independently, the only possible
alerts are those two (so 0, 1 or 2 fire per call), and the function
keeps no state — its output is determined by the rates and thresholds
alone, so consecutive over-threshold calls re-fire identically. -/
theorem C9_threshold_strictly_greater (m : NetworkMonitorState)
    (upload_speed download_speed : ℚ) :
    ((⟨.upload, upload_speed, m.thresholds_upload⟩ : AlertEvent) ∈
        m.check_thresholds upload_speed download_speed ↔
      upload_speed > m.thresholds_upload) ∧
    ((⟨.download, download_speed, m.thresholds_download⟩ : AlertEvent) ∈
        m.check_thresholds upload_speed download_speed ↔
      download_speed > m.thresholds_download) ∧
    (∀ a ∈ m.check_thresholds upload_speed download_speed,
      a = ⟨.upload, upload_speed, m.thresholds_upload⟩ ∨
      a = ⟨.download, download_speed, m.thresholds_download⟩) ∧
    (m.check_thresholds upload_speed download_speed).length ≤ 2 := by
  unfold NetworkMonitorState.check_thresholds
  by_cases hu : upload_speed > m.thresholds_upload <;>
    by_cases hd : download_speed > m.thresholds_download <;>
      simp [hu, hd]

/-- Witness for C9: thresholds 50/100 with rates 51/100 — the upload
alert fires (51 > 50) and the download alert does not (100 > 100 is
false, equality never alerts). -/
theorem C9_witness :
    (⟨.upload, 51, 50⟩ : AlertEvent) ∈
      NetworkMonitorState.check_thresholds ⟨50, 100, 1, none⟩ 51 100 ∧
    (⟨.download, 100, 100⟩ : AlertEvent) ∉
      NetworkMonitorState.check_thresholds ⟨50, 100, 1, none⟩ 51 100 :=
  ⟨(C9_threshold_strictly_greater ⟨50, 100, 1, none⟩ 51 100).1.mpr (by norm_num),
   fun h => absurd ((C9_threshold_strictly_greater ⟨50, 100, 1, none⟩ 51 100).2.1.mp h)
     (by norm_num)⟩

/-! Claim C10. -/

/-- C10: because the loop-exit test checks the truthiness of `duration`
before comparing elapsed time, a duration of 0 never stops the loop —
`monitor(duration=0)` runs indefinitely, exactly as `duration=None`
does — and for any positive duration the exit test succeeds exactly
when the elapsed time strictly exceeds the duration, never when it
merely equals it. -/
theorem C10_duration_zero_runs_forever (elapsedTimes : List ℚ) (d e : ℚ) :
    monitor_stop_tick (some 0) elapsedTimes = none ∧
    monitor_stop_tick (some 0) elapsedTimes = monitor_stop_tick none elapsedTimes ∧
    (0 < d → (should_stop (some d) e = true ↔ e > d)) := by
  have hzero : ∀ t : ℚ, should_stop (some 0) t = false := by
    intro t
    simp [should_stop]
  have hnone : ∀ t : ℚ, should_stop (none : Option ℚ) t = false := fun _ => rfl
  have hidx : ∀ (p : ℚ → Bool), (∀ t, p t = false) →
      ∀ l : List ℚ, l.findIdx? p = none := by
    intro p hp l
    induction l with
    | nil => rfl
    | cons x xs ih => simp [List.findIdx?_cons, hp x, ih]
  refine ⟨hidx _ hzero elapsedTimes, ?_, ?_⟩
  · rw [monitor_stop_tick, monitor_stop_tick, hidx _ hzero, hidx _ hnone]
  · intro hd
    unfold should_stop
    constructor
    · intro h
      have := of_decide_eq_true (Bool.and_elim_right h)
      exact this
    · intro h
      refine Bool.and_eq_true_iff.mpr ⟨decide_eq_true ?_, decide_eq_true h⟩
      exact ne_of_gt hd

/-- Witness for C10: a loop that has already run for 1000 s with
duration 0 still does not stop; with duration 5 s the exit test at
elapsed exactly 5 s is still false (strict comparison). -/
theorem C10_witness :
    monitor_stop_tick (some 0) [1000] = none ∧
    (should_stop (some 5) 5 = true ↔ (5 : ℚ) > 5) :=
  ⟨(C10_duration_zero_runs_forever [1000] 5 5).1,
   (C10_duration_zero_runs_forever [1000] 5 5).2.2 (by norm_num)⟩
